import Mathlib

set_option maxHeartbeats 1000000

/-!
Shallow embedding of the hinge repository (src/hinge/dialogs.py and
src/hinge/widgets.py).

Numeric model: spin-box and conversion values are exact rationals (ℚ).
Python float rounding, QDoubleSpinBox decimal rounding and spin-box range
clamping are not modelled for the export dialog (the specification's
invariants are stated in exact arithmetic); `setDecimals`, `setSingleStep`
and `setRange` in `changed_print_units` are therefore no-ops here.

Signal model: Qt delivers `valueChanged` synchronously and only when a
`setValue` call actually changes the stored value.  Each `setValue_*`
function stores the value and, when it changed, invokes the dispatcher `D`
for the corresponding signal.  `dispatch n` wires the signals to the
handlers exactly as `ExportImageDialog.__init__` connects them, with fuel
`n` bounding the nesting depth of signal deliveries (the Python call stack);
`dispatch 0` delivers nothing.  Combo boxes are only changed by the user, so
their signals appear as `Event`s, not as `Sig`s.

The ghost counters `upd_runs` / `uid_runs` count executions of
`update_print_dimensions` / `update_image_dimensions`; they influence no
arithmetic.
-/

namespace Hinge

inductive PrintUnit where
  | inch
  | mm
  | cm
  | m
deriving DecidableEq

inductive ResUnit where
  | dpi
  | pxmm
  | pxcm
  | pxm
deriving DecidableEq

namespace ExportImageDialog

/-- `ExportImageDialog.print_u`: measure of each print unit relative to metres. -/
def print_u : PrintUnit → ℚ
  | PrintUnit.inch => 39.3701
  | PrintUnit.mm => 1000
  | PrintUnit.cm => 100
  | PrintUnit.m => 1

/-- The text shown by the print-units combo box for each unit. -/
def print_units_text : PrintUnit → String
  | PrintUnit.inch => "in"
  | PrintUnit.mm => "mm"
  | PrintUnit.cm => "cm"
  | PrintUnit.m => "m"

/-- `ExportImageDialog.resolution_u`: scale of each resolution unit to pixels per metre. -/
def resolution_u : ResUnit → ℚ
  | ResUnit.dpi => 39.3701
  | ResUnit.pxmm => 1000
  | ResUnit.pxcm => 100
  | ResUnit.pxm => 1

/-- The text shown by the resolution-units combo box for each unit. -/
def resolution_units_text : ResUnit → String
  | ResUnit.dpi => "dpi"
  | ResUnit.pxmm => "px/mm"
  | ResUnit.pxcm => "px/cm"
  | ResUnit.pxm => "px/m"

/-- `ExportImageDialog.convert_res_to_unit`. -/
def convert_res_to_unit : ResUnit → PrintUnit
  | ResUnit.dpi => PrintUnit.inch
  | ResUnit.pxmm => PrintUnit.mm
  | ResUnit.pxcm => PrintUnit.cm
  | ResUnit.pxm => PrintUnit.m

/-- `ExportImageDialog.get_converted_measurement(x, f, t)`. -/
def get_converted_measurement (x : ℚ) (f t : PrintUnit) : ℚ :=
  (x / print_u f) * print_u t

/-- The dialog's widget values and instance attributes. -/
structure State where
  width : ℚ
  height : ℚ
  width_p : ℚ
  height_p : ℚ
  resolution : ℚ
  print_units : PrintUnit
  resolution_units : ResUnit
  w_ : ℚ
  h_ : ℚ
  updating : Bool
  current_dimension : PrintUnit
  current_resolution : ℚ
  current_resolution_units : ResUnit
  upd_runs : ℕ
  uid_runs : ℕ
deriving DecidableEq

/-- `ExportImageDialog.get_pixel_size(s, pu, r, ru)`. -/
def get_pixel_size (s : ℚ) (pu : PrintUnit) (r : ℚ) (ru : ResUnit) : ℚ :=
  (s / print_u pu) * (r * resolution_u ru)

/-- `ExportImageDialog.get_as_print_size(s, u)`: reads the dialog's resolution fields. -/
def get_as_print_size (st : State) (s : ℚ) (u : PrintUnit) : ℚ :=
  get_converted_measurement (s / (st.resolution * resolution_u st.resolution_units)) PrintUnit.m u

/-- `ExportImageDialog.get_print_size(u)`. -/
def get_print_size (st : State) (u : PrintUnit) : ℚ × ℚ :=
  (get_as_print_size st st.w_ u, get_as_print_size st st.h_ u)

/-- `ExportImageDialog.get_dots_per_meter()`. -/
def get_dots_per_meter (st : State) : ℚ :=
  st.resolution * resolution_u st.resolution_units

/-- `ExportImageDialog.get_dots_per_inch()`; the first branch compares the
resolution-units combo text with the string constant of the source. -/
def get_dots_per_inch (st : State) : ℚ :=
  if resolution_units_text st.resolution_units = "in" then
    st.resolution
  else
    get_converted_measurement st.resolution (convert_res_to_unit st.resolution_units) PrintUnit.inch

/-- The signals whose handlers can be invoked by programmatic `setValue` calls. -/
inductive Sig where
  | width
  | height
  | width_p
  | height_p
  | resolution
deriving DecidableEq

/-- A signal dispatcher: how an emitted signal is delivered to handlers. -/
abbrev Dispatch := Sig → State → State

/-- `self.width.setValue(v)`: stores `v` and emits `valueChanged` iff the value changed. -/
def setValue_width (D : Dispatch) (st : State) (v : ℚ) : State :=
  if v = st.width then st else D Sig.width { st with width := v }

/-- `self.height.setValue(v)`. -/
def setValue_height (D : Dispatch) (st : State) (v : ℚ) : State :=
  if v = st.height then st else D Sig.height { st with height := v }

/-- `self.width_p.setValue(v)`. -/
def setValue_width_p (D : Dispatch) (st : State) (v : ℚ) : State :=
  if v = st.width_p then st else D Sig.width_p { st with width_p := v }

/-- `self.height_p.setValue(v)`. -/
def setValue_height_p (D : Dispatch) (st : State) (v : ℚ) : State :=
  if v = st.height_p then st else D Sig.height_p { st with height_p := v }

/-- `self.resolution.setValue(v)`. -/
def setValue_resolution (D : Dispatch) (st : State) (v : ℚ) : State :=
  if v = st.resolution then st else D Sig.resolution { st with resolution := v }

/-- `ExportImageDialog.update_print_dimensions`. -/
def update_print_dimensions (D : Dispatch) (st : State) : State :=
  let st := { st with w_ := st.width, h_ := st.height, upd_runs := st.upd_runs + 1 }
  let w_p := get_as_print_size st st.w_ st.print_units
  let h_p := get_as_print_size st st.h_ st.print_units
  let st := setValue_width_p D st w_p
  setValue_height_p D st h_p

/-- `ExportImageDialog.update_image_dimensions`; note that the arguments of the
two trailing `setValue` calls are the attributes `self._w` / `self._h` read at
call time, which an intervening signal cascade may have re-synchronised. -/
def update_image_dimensions (D : Dispatch) (st : State) : State :=
  let w_p := st.width_p
  let h_p := st.height_p
  let w := get_pixel_size w_p st.print_units st.resolution st.resolution_units
  let h := get_pixel_size h_p st.print_units st.resolution st.resolution_units
  let st := { st with w_ := w, h_ := h, uid_runs := st.uid_runs + 1 }
  let st := setValue_width D st st.w_
  setValue_height D st st.h_

/-- `ExportImageDialog.changed_image_dimensions`. -/
def changed_image_dimensions (D : Dispatch) (st : State) : State :=
  let st :=
    if st.updating = false then update_print_dimensions D { st with updating := true } else st
  let st := { st with updating := false }
  { st with w_ := st.width, h_ := st.height }

/-- `ExportImageDialog.changed_print_dimensions`. -/
def changed_print_dimensions (D : Dispatch) (st : State) : State :=
  let st :=
    if st.updating = false then update_image_dimensions D { st with updating := true } else st
  { st with updating := false }

/-- `ExportImageDialog.changed_print_resolution`. -/
def changed_print_resolution (D : Dispatch) (st : State) : State :=
  let w_p := st.width_p
  let h_p := st.height_p
  let new_resolution := st.resolution
  let st := setValue_width_p D st ((w_p / st.current_resolution) * new_resolution)
  let st := setValue_height_p D st ((h_p / st.current_resolution) * new_resolution)
  { st with current_resolution := st.resolution }

/-- `ExportImageDialog.changed_print_units`; the `setDecimals` / `setSingleStep`
and `setRange` calls only affect display precision and clamping, which this
exact-arithmetic model does not represent. -/
def changed_print_units (D : Dispatch) (st : State) : State :=
  let dimension_t := st.print_units
  if dimension_t ≠ st.current_dimension then
    let st := setValue_width_p D st
      (get_converted_measurement st.width_p st.current_dimension dimension_t)
    let st := setValue_height_p D st
      (get_converted_measurement st.height_p st.current_dimension dimension_t)
    { st with current_dimension := dimension_t }
  else
    { st with current_dimension := dimension_t }

/-- `ExportImageDialog.changed_resolution_units`. -/
def changed_resolution_units (D : Dispatch) (st : State) : State :=
  let ru := st.resolution_units
  let st := setValue_resolution D st
    (st.resolution * resolution_u st.current_resolution_units / resolution_u ru)
  { st with current_resolution_units := ru }

/-- Signal wiring of `ExportImageDialog.__init__`, with fuel bounding nesting depth. -/
def dispatch : ℕ → Sig → State → State
  | 0, _, st => st
  | n + 1, Sig.width, st => changed_image_dimensions (dispatch n) st
  | n + 1, Sig.height, st => changed_image_dimensions (dispatch n) st
  | n + 1, Sig.width_p, st => changed_print_dimensions (dispatch n) st
  | n + 1, Sig.height_p, st => changed_print_dimensions (dispatch n) st
  | n + 1, Sig.resolution, st => changed_print_resolution (dispatch n) st

/-- One user interaction with the dialog. -/
inductive Event where
  | setWidth (v : ℚ)
  | setHeight (v : ℚ)
  | setWidthP (v : ℚ)
  | setHeightP (v : ℚ)
  | setResolution (v : ℚ)
  | setPrintUnits (u : PrintUnit)
  | setResolutionUnits (u : ResUnit)

/-- Effect of one user interaction: a spin-box edit behaves like `setValue`
(store plus signal on change); a combo-box edit stores the new selection and,
when it changed, runs the connected handler. -/
def step (n : ℕ) : Event → State → State
  | Event.setWidth v, st => setValue_width (dispatch n) st v
  | Event.setHeight v, st => setValue_height (dispatch n) st v
  | Event.setWidthP v, st => setValue_width_p (dispatch n) st v
  | Event.setHeightP v, st => setValue_height_p (dispatch n) st v
  | Event.setResolution v, st => setValue_resolution (dispatch n) st v
  | Event.setPrintUnits u, st =>
      if u = st.print_units then st
      else changed_print_units (dispatch n) { st with print_units := u }
  | Event.setResolutionUnits u, st =>
      if u = st.resolution_units then st
      else changed_resolution_units (dispatch n) { st with resolution_units := u }

/-- During `__init__` no handler is connected yet, so `setValue` emits nothing. -/
def noSignal : Dispatch := fun _ st => st

/-- `ExportImageDialog.__init__(parent, size=QSize(W, H), dpm=11811)`: the widget
values after construction (defaults 300 dpi, print unit cm; the
`_current_*` attributes are recorded before any handler can run). -/
def mk_dialog (W H : ℚ) : State :=
  let st : State :=
    { width := 0, height := 0, width_p := 0, height_p := 0
      resolution := 300, print_units := PrintUnit.cm, resolution_units := ResUnit.dpi
      w_ := W, h_ := H, updating := false
      current_dimension := PrintUnit.cm, current_resolution := 300
      current_resolution_units := ResUnit.dpi, upd_runs := 0, uid_runs := 0 }
  let st := setValue_width noSignal st W
  let st := setValue_height noSignal st H
  update_print_dimensions noSignal st

/-- The coupled-quantity invariant of the export dialog together with the
bookkeeping facts the handlers maintain: pixel size equals print size in
metres times resolution in dots per metre (for width and height), the `_w` /
`_h` mirrors and `_current_*` attributes agree with the widgets, the
re-entrancy flag is clear, and the spin-box values are positive (their Qt
ranges have positive minima). -/
structure Consistent (st : State) : Prop where
  inv_w : st.width = get_pixel_size st.width_p st.print_units st.resolution st.resolution_units
  inv_h : st.height = get_pixel_size st.height_p st.print_units st.resolution st.resolution_units
  sync_w : st.w_ = st.width
  sync_h : st.h_ = st.height
  guard_off : st.updating = false
  cur_dim : st.current_dimension = st.print_units
  cur_res : st.current_resolution = st.resolution
  cur_ru : st.current_resolution_units = st.resolution_units
  pos_wp : 0 < st.width_p
  pos_hp : 0 < st.height_p
  pos_res : 0 < st.resolution

/-- Values a user interaction can actually carry: every spin box of the dialog
has a positive range minimum (pixels ≥ 1, print ≥ 0.0001, resolution ≥ 1), so
edited values are positive; combo-box selections carry no number. -/
def EventOK : Event → Prop
  | Event.setWidth v => 0 < v
  | Event.setHeight v => 0 < v
  | Event.setWidthP v => 0 < v
  | Event.setHeightP v => 0 < v
  | Event.setResolution v => 0 < v
  | Event.setPrintUnits _ => True
  | Event.setResolutionUnits _ => True

end ExportImageDialog

/-- `widgets.QColorButton`: the stored colour (`None` or a colour-name string),
the current style sheet, and a ghost count of `colorChanged` emissions. -/
structure QColorButton where
  color : Option String
  styleSheet : String
  emitted : ℕ
deriving DecidableEq

namespace QColorButton

/-- Python truthiness of `self._color` (`None` and the empty string are falsy). -/
def truthy : Option String → Bool
  | none => false
  | some s => !(s = "")

/-- `QColorButton.setColor(color)`: store and emit `colorChanged` when the colour
differs, then set the style sheet from the (possibly updated) stored colour. -/
def setColor (b : QColorButton) (color : Option String) : QColorButton :=
  let b := if color ≠ b.color then { b with color := color, emitted := b.emitted + 1 } else b
  if truthy b.color then
    { b with styleSheet := "background-color: " ++ b.color.getD "" ++ ";" }
  else
    { b with styleSheet := "" }

end QColorButton

/-- `widgets.QNoneDoubleSpinBox`: the base `QDoubleSpinBox` state (range and
stored value, which Qt clamps to the range on `setValue`), the `is_None` flag,
the enabled flag, and the list of `valueChanged` payloads emitted. -/
structure QNoneDoubleSpinBox where
  minimum : ℚ
  maximum : ℚ
  stored : ℚ
  is_None : Bool
  enabled : Bool
  emitted : List ℚ
deriving DecidableEq

namespace QNoneDoubleSpinBox

/-- `QDoubleSpinBox.setValue` of the base class: clamp to the range, store, and
emit `valueChanged` iff the stored value changed. -/
def base_setValue (b : QNoneDoubleSpinBox) (v : ℚ) : QNoneDoubleSpinBox :=
  let c := min (max v b.minimum) b.maximum
  if c = b.stored then b else { b with stored := c, emitted := b.emitted ++ [c] }

/-- `QNoneDoubleSpinBox.value()`. -/
def value (b : QNoneDoubleSpinBox) : Option ℚ :=
  if b.is_None then none else some b.stored

/-- `QNoneDoubleSpinBox.setValue(v)`. -/
def setValue (b : QNoneDoubleSpinBox) (v : Option ℚ) : QNoneDoubleSpinBox :=
  match v with
  | none =>
      let b := { b with is_None := true, enabled := false }
      { b with emitted := b.emitted ++ [-65535] }
  | some x =>
      base_setValue { b with is_None := false, enabled := true } x

end QNoneDoubleSpinBox

/-- `widgets.QListWidgetAddRemove`: the rows of the list widget and a ghost
count of `itemAddedOrRemoved` emissions. -/
structure QListWidgetAddRemove where
  items : List String
  emitted : ℕ
deriving DecidableEq

namespace QListWidgetAddRemove

/-- `QListWidget.addItem` of the base class (appends a row). -/
def base_addItem (w : QListWidgetAddRemove) (it : String) : QListWidgetAddRemove :=
  { w with items := w.items ++ [it] }

/-- `QListWidget.addItems` of the base class (appends rows). -/
def base_addItems (w : QListWidgetAddRemove) (its : List String) : QListWidgetAddRemove :=
  { w with items := w.items ++ its }

/-- `QListWidget.takeItem(row)` of the base class: removes and returns the item
at `row`, or returns nothing when the row is out of range. -/
def base_takeItem (w : QListWidgetAddRemove) (row : ℕ) :
    Option String × QListWidgetAddRemove :=
  if h : row < w.items.length then
    (some (w.items.get ⟨row, h⟩), { w with items := w.items.eraseIdx row })
  else
    (none, w)

/-- `QListWidget.clear` of the base class. -/
def base_clear (w : QListWidgetAddRemove) : QListWidgetAddRemove :=
  { w with items := [] }

/-- `QListWidgetAddRemove.addItem`. -/
def addItem (w : QListWidgetAddRemove) (it : String) : QListWidgetAddRemove :=
  let w := base_addItem w it
  { w with emitted := w.emitted + 1 }

/-- `QListWidgetAddRemove.addItems`. -/
def addItems (w : QListWidgetAddRemove) (its : List String) : QListWidgetAddRemove :=
  let w := base_addItems w its
  { w with emitted := w.emitted + 1 }

/-- `QListWidgetAddRemove.removeItemAt(row)`: delegates to `takeItem`, emits,
and returns the taken item. -/
def removeItemAt (w : QListWidgetAddRemove) (row : ℕ) :
    Option String × QListWidgetAddRemove :=
  let r := base_takeItem w row
  (r.1, { r.2 with emitted := r.2.emitted + 1 })

/-- `QListWidgetAddRemove.clear`. -/
def clear (w : QListWidgetAddRemove) : QListWidgetAddRemove :=
  let w := base_clear w
  { w with emitted := w.emitted + 1 }

end QListWidgetAddRemove

/-- A list control as `GenericDialog.setListControl` uses it: items plus a
selection flag per index. -/
structure ListControl where
  items : List String
  selected : ℕ → Bool

namespace GenericDialog

/-- Python `list.index(e)`: the first index of `e`, or an exception (`none`). -/
def pyIndex : List String → String → Option ℕ
  | [], _ => none
  | x :: xs, e => if x = e then some 0 else (pyIndex xs e).map (fun i => i + 1)

/-- The comprehension `[items.index(e) for e in list]`: evaluated left to
right, aborting with an exception (`none`) at the first missing element. -/
def indexList (items : List String) : List String → Option (List ℕ)
  | [] => some []
  | e :: rest =>
      match pyIndex items e, indexList items rest with
      | some i, some is => some (i :: is)
      | _, _ => none

/-- `control.Select(idx)`. -/
def Select (c : ListControl) (idx : ℕ) : ListControl :=
  { c with selected := fun j => if j = idx then true else c.selected j }

/-- `control.Deselect(idx)`. -/
def Deselect (c : ListControl) (idx : ℕ) : ListControl :=
  { c with selected := fun j => if j = idx then false else c.selected j }

/-- `GenericDialog.setListControl(control, list, checked)`: the index list is
computed in full before any mutation, and a missing element raises inside the
comprehension, which the bare `except` swallows, leaving the control untouched. -/
def setListControl (c : ListControl) (list : List String) (checked : Bool) : ListControl :=
  match indexList c.items list with
  | none => c
  | some idxs =>
      idxs.foldl (fun acc idx => if checked then Select acc idx else Deselect acc idx) c

end GenericDialog

open ExportImageDialog in
/-- Written from the words of the specification sentence on unit conversion:
"factor maps in → 39.3701, mm → 1000, cm → 100, m → 1 (each unit's ratio
against the metre)"; to be compared with the source table `print_u`. -/
def print_factor_spec : PrintUnit → ℚ
  | PrintUnit.inch => 39.3701
  | PrintUnit.mm => 1000
  | PrintUnit.cm => 100
  | PrintUnit.m => 1

/-- Fixture: the dialog constructed with its default 800×600 size. -/
def dialog800 : ExportImageDialog.State := ExportImageDialog.mk_dialog 800 600

/-- Fixture: a dialog whose resolution reads 100 px/mm. -/
def dialogPxMm100 : ExportImageDialog.State :=
  { dialog800 with resolution := 100, resolution_units := ResUnit.pxmm }

/-- Fixture: a colour button currently showing red. -/
def colorButtonRed : QColorButton :=
  { color := some "red", styleSheet := "background-color: red;", emitted := 0 }

/-- Fixture: a two-item list control with nothing selected. -/
def listControlAB : ListControl :=
  { items := ["a", "b"], selected := fun _ => false }

/-! Helper lemmas about the unit tables and pure conversions. -/

namespace ExportImageDialog

theorem print_u_pos (u : PrintUnit) : 0 < print_u u := by
  cases u <;> norm_num [print_u]

theorem resolution_u_pos (u : ResUnit) : 0 < resolution_u u := by
  cases u <;> norm_num [resolution_u]

theorem print_u_ne_zero (u : PrintUnit) : print_u u ≠ 0 :=
  ne_of_gt (print_u_pos u)

theorem resolution_u_ne_zero (u : ResUnit) : resolution_u u ≠ 0 :=
  ne_of_gt (resolution_u_pos u)

theorem print_u_inj {u v : PrintUnit} (h : print_u u = print_u v) : u = v := by
  cases u <;> cases v <;> first
  | rfl
  | (exfalso; norm_num [print_u] at h)

theorem resolution_u_inj {u v : ResUnit} (h : resolution_u u = resolution_u v) : u = v := by
  cases u <;> cases v <;> first
  | rfl
  | (exfalso; norm_num [resolution_u] at h)

/-- Applying `get_pixel_size` to `get_as_print_size` with the dialog's own
resolution fields gives back the original pixel size. -/
theorem pixel_of_print_of_pixel (st : State) (s : ℚ) (u : PrintUnit)
    (h : st.resolution ≠ 0) :
    get_pixel_size (get_as_print_size st s u) u st.resolution st.resolution_units = s := by
  unfold get_pixel_size get_as_print_size get_converted_measurement
  have h1 := print_u_ne_zero u
  have h2 := resolution_u_ne_zero st.resolution_units
  rw [show print_u PrintUnit.m = 1 from rfl]
  field_simp
  ring

/-- Applying `get_as_print_size` to `get_pixel_size` with the dialog's own
resolution fields gives back the original print size. -/
theorem print_of_pixel_of_print (st : State) (p : ℚ) (u : PrintUnit)
    (h : st.resolution ≠ 0) :
    get_as_print_size st (get_pixel_size p u st.resolution st.resolution_units) u = p := by
  unfold get_pixel_size get_as_print_size get_converted_measurement
  have h1 := print_u_ne_zero u
  have h2 := resolution_u_ne_zero st.resolution_units
  rw [show print_u PrintUnit.m = 1 from rfl]
  field_simp
  ring

/-- Rescaling by `v / r` moves a nonzero value unless `v = r`. -/
theorem div_mul_ne_self (a r v : ℚ) (ha : a ≠ 0) (hr : r ≠ 0) (hne : v ≠ r) :
    a / r * v ≠ a := by
  intro h
  apply hne
  rw [div_mul_eq_mul_div, div_eq_iff hr] at h
  exact mul_left_cancel₀ ha h

/-- Rescaling by `g / g2` moves a nonzero value unless `g = g2`. -/
theorem mul_div_ne_self (r g g2 : ℚ) (hr : r ≠ 0) (hg2 : g2 ≠ 0) (hne : g ≠ g2) :
    r * g / g2 ≠ r := by
  intro h
  apply hne
  rw [div_eq_iff hg2] at h
  exact mul_left_cancel₀ hr h

/-- A pixel size recomputed after rescaling both the print size and the
resolution value by `v / r` differs from the original unless `v = r`. -/
theorem div_mul_sq_ne (a f g r v : ℚ) (ha : 0 < a) (hf : 0 < f) (hg : 0 < g)
    (hr : 0 < r) (hv : 0 < v) (hne : v ≠ r) :
    a / r * v / f * (v * g) ≠ a / f * (r * g) := by
  intro h
  apply hne
  have ha' := ne_of_gt ha
  have hf' := ne_of_gt hf
  have hg' := ne_of_gt hg
  have hr' := ne_of_gt hr
  have hvv : v * v = r * r := by
    field_simp at h
    have hca : (a * g * f) * (v * v) = (a * g * f) * (r * r) := by linear_combination h
    exact mul_left_cancel₀ (by positivity) hca
  rcases mul_self_eq_mul_self_iff.mp hvv with h1 | h1
  · exact h1
  · nlinarith

/-- The same quantity re-expressed against two different unit factors differs
unless the factors agree. -/
theorem div_left_mul_ne (a b f f2 : ℚ) (ha : a ≠ 0) (hb : b ≠ 0) (hf : f ≠ 0)
    (hf2 : f2 ≠ 0) (hne : f2 ≠ f) : a / f2 * b ≠ a / f * b := by
  intro h
  apply hne
  field_simp at h
  exact h.symm

/-- A pixel size recomputed after a resolution-unit switch (print size scaled
by `g / g2`, dots per metre preserved) differs from the original unless the
unit factors agree. -/
theorem res_unit_scale_ne (a f g g2 r : ℚ) (ha : 0 < a) (hf : 0 < f) (hg : 0 < g)
    (hg2 : 0 < g2) (hr : 0 < r) (hne : g ≠ g2) :
    a / r * (r * g / g2) / f * (r * g / g2 * g2) ≠ a / f * (r * g) := by
  intro h
  rw [div_mul_cancel₀ _ (ne_of_gt hg2)] at h
  have h2 := mul_right_cancel₀ (by positivity : r * g ≠ 0) h
  have h3 := (div_left_inj' (ne_of_gt hf)).mp h2
  exact div_mul_ne_self a r (r * g / g2) (ne_of_gt ha) (ne_of_gt hr)
    (mul_div_ne_self r g g2 (ne_of_gt hr) (ne_of_gt hg2) hne) h3

/-- `get_as_print_size` is injective in the size argument (nonzero resolution). -/
theorem gaps_ne (st : State) (hr : st.resolution ≠ 0) (u : PrintUnit) {a b : ℚ}
    (h : a ≠ b) : get_as_print_size st a u ≠ get_as_print_size st b u := by
  intro hh
  apply h
  rw [← pixel_of_print_of_pixel st a u hr, ← pixel_of_print_of_pixel st b u hr, hh]

/-- `get_pixel_size` is injective in the print-size argument (nonzero resolution). -/
theorem gps_ne (st : State) (hr : st.resolution ≠ 0) (u : PrintUnit) {a b : ℚ}
    (h : a ≠ b) :
    get_pixel_size a u st.resolution st.resolution_units ≠
      get_pixel_size b u st.resolution st.resolution_units := by
  intro hh
  apply h
  rw [← print_of_pixel_of_print st a u hr, ← print_of_pixel_of_print st b u hr, hh]

/-- In a consistent state the print width is what `update_print_dimensions`
would recompute from the pixel width. -/
theorem gaps_width (st : State) (hc : Consistent st) :
    get_as_print_size st st.width st.print_units = st.width_p := by
  rw [hc.inv_w, print_of_pixel_of_print st st.width_p st.print_units (ne_of_gt hc.pos_res)]

/-- In a consistent state the print height is what `update_print_dimensions`
would recompute from the pixel height. -/
theorem gaps_height (st : State) (hc : Consistent st) :
    get_as_print_size st st.height st.print_units = st.height_p := by
  rw [hc.inv_h, print_of_pixel_of_print st st.height_p st.print_units (ne_of_gt hc.pos_res)]

end ExportImageDialog

open ExportImageDialog

/-- Evaluation of the constructed default dialog: 800 × 600 pixels at 300 dpi
come out as 8000000/1181103 × 6000000/1181103 cm (≈ 6.77 × 5.08 cm). -/
theorem dialog800_eval :
    dialog800 =
      { width := 800, height := 600, width_p := 8000000 / 1181103,
        height_p := 6000000 / 1181103, resolution := 300,
        print_units := PrintUnit.cm, resolution_units := ResUnit.dpi,
        w_ := 800, h_ := 600, updating := false,
        current_dimension := PrintUnit.cm, current_resolution := 300,
        current_resolution_units := ResUnit.dpi, upd_runs := 1, uid_runs := 0 } := by
  norm_num [dialog800, mk_dialog, noSignal, setValue_width, setValue_height,
    setValue_width_p, setValue_height_p, update_print_dimensions,
    get_as_print_size, get_converted_measurement, print_u, resolution_u,
    State.mk.injEq]

/-- C2: `get_converted_measurement(x, f, t)` is a pure function of its arguments
returning exactly `x / factor(f) × factor(t)`, where factor maps in → 39.3701,
mm → 1000, cm → 100, m → 1 (each unit's ratio against the metre); the call
reads and modifies no dialog state. -/
theorem C2_get_converted_measurement_pure (x : ℚ) (f t : PrintUnit) :
    get_converted_measurement x f t = x / print_factor_spec f * print_factor_spec t ∧
    print_factor_spec PrintUnit.inch = 39.3701 ∧ print_factor_spec PrintUnit.mm = 1000 ∧
    print_factor_spec PrintUnit.cm = 100 ∧ print_factor_spec PrintUnit.m = 1 := by
  refine ⟨?_, rfl, rfl, rfl, rfl⟩
  cases f <;> cases t <;> rfl

/-- C5: for every print unit `u`, with the resolution value and unit held in the
dialog's resolution fields (resolution positive), `get_pixel_size` inverts
`get_as_print_size` under exact arithmetic. -/
theorem C5_pixel_print_inverse (st : State) (s : ℚ) (u : PrintUnit)
    (h : 0 < st.resolution) :
    get_pixel_size (get_as_print_size st s u) u st.resolution st.resolution_units = s :=
  pixel_of_print_of_pixel st s u (ne_of_gt h)

/-- Witness for C5 at the freshly constructed dialog, size 5 and unit mm. -/
theorem C5_pixel_print_inverse_witness :
    0 < dialog800.resolution ∧
    get_pixel_size (get_as_print_size dialog800 5 PrintUnit.mm) PrintUnit.mm
      dialog800.resolution dialog800.resolution_units = 5 :=
  ⟨by rw [dialog800_eval]; norm_num, C5_pixel_print_inverse dialog800 5 PrintUnit.mm
    (by rw [dialog800_eval]; norm_num)⟩

/-- C8: the claim that `get_dots_per_inch()` always equals
`get_dots_per_meter() / 39.3701` fails on the code: at 100 px/mm the code
converts with the from/to factors swapped and returns 3.93701 instead of
100000 / 39.3701 dots per inch. -/
theorem C8_dots_per_inch_divergence :
    get_dots_per_inch dialogPxMm100 = 3.93701 ∧
    get_dots_per_meter dialogPxMm100 = 100000 ∧
    get_dots_per_inch dialogPxMm100 ≠ get_dots_per_meter dialogPxMm100 / 39.3701 := by
  have hd : get_dots_per_inch dialogPxMm100 = 393701 / 100000 := by
    rw [get_dots_per_inch, if_neg (by decide)]
    norm_num [dialogPxMm100, get_converted_measurement, convert_res_to_unit, print_u]
  have hm : get_dots_per_meter dialogPxMm100 = 100000 := by
    norm_num [get_dots_per_meter, dialogPxMm100, resolution_u]
  refine ⟨by rw [hd]; norm_num, hm, ?_⟩
  rw [hd, hm]
  norm_num

/-- C6: every mutating operation of `QListWidgetAddRemove` emits
`itemAddedOrRemoved` exactly once and otherwise behaves as (and, for
`removeItemAt`, returns the item taken by) the base-class operation. -/
theorem C6_list_widget_notifies (w : QListWidgetAddRemove) (it : String)
    (its : List String) (row : ℕ) :
    ((w.addItem it).items = (w.base_addItem it).items ∧
      (w.addItem it).emitted = w.emitted + 1) ∧
    ((w.addItems its).items = (w.base_addItems its).items ∧
      (w.addItems its).emitted = w.emitted + 1) ∧
    ((w.removeItemAt row).1 = (w.base_takeItem row).1 ∧
      (w.removeItemAt row).2.items = (w.base_takeItem row).2.items ∧
      (w.removeItemAt row).2.emitted = w.emitted + 1) ∧
    ((w.clear).items = (w.base_clear).items ∧ (w.clear).emitted = w.emitted + 1) := by
  refine ⟨⟨rfl, rfl⟩, ⟨rfl, rfl⟩, ⟨rfl, rfl, ?_⟩, ⟨rfl, rfl⟩⟩
  simp only [QListWidgetAddRemove.removeItemAt, QListWidgetAddRemove.base_takeItem]
  split <;> rfl

/-- C7: `QNoneDoubleSpinBox` round-trips null and numeric values: after
`setValue(None)` the widget reads `None` and is disabled; after `setValue(v)`
it reads `v` clamped to the spin box's range and is enabled. -/
theorem C7_none_spinbox_roundtrip (b : QNoneDoubleSpinBox) (v : ℚ) :
    (b.setValue none).value = none ∧ (b.setValue none).enabled = false ∧
    (b.setValue (some v)).value = some (min (max v b.minimum) b.maximum) ∧
    (b.setValue (some v)).enabled = true := by
  refine ⟨rfl, rfl, ?_, ?_⟩
  · simp only [QNoneDoubleSpinBox.setValue, QNoneDoubleSpinBox.base_setValue,
      QNoneDoubleSpinBox.value]
    split <;> simp_all
  · simp only [QNoneDoubleSpinBox.setValue, QNoneDoubleSpinBox.base_setValue]
    split <;> rfl

/-- C9 counterexample: setting the colour to the empty string differs from the
stored colour (so the signal fires and the stored colour becomes `some ""`),
yet the style sheet is cleared rather than set to reflect the non-None colour,
because Python truthiness treats the empty string like `None`. -/
theorem C9_setColor_counterexample :
    (colorButtonRed.setColor (some "")).color = some "" ∧
    (colorButtonRed.setColor (some "")).emitted = colorButtonRed.emitted + 1 ∧
    (colorButtonRed.setColor (some "")).styleSheet = "" ∧
    "" ≠ "background-color: " ++ "" ++ ";" := by
  refine ⟨?_, ?_, ?_, by decide⟩ <;>
    simp [QColorButton.setColor, QColorButton.truthy, colorButtonRed]

/-- C9 amended: `setColor(c)` emits `colorChanged` iff `c` differs from the
stored colour, afterwards `color()` returns `c`, and the style sheet reflects
`c` when `c` is truthy (non-None and non-empty) and is cleared when `c` is
`None` or the empty string. -/
theorem C9_setColor_amended (b : QColorButton) (c : Option String) :
    (b.setColor c).color = c ∧
    (b.setColor c).emitted = (if c = b.color then b.emitted else b.emitted + 1) ∧
    (b.setColor c).styleSheet =
      (match c with
       | none => ""
       | some s => if s = "" then "" else "background-color: " ++ s ++ ";") := by
  rcases c with _ | s
  · by_cases h : (none : Option String) = b.color
    · simp [QColorButton.setColor, QColorButton.truthy, h.symm]
    · simp [QColorButton.setColor, QColorButton.truthy, h]
  · by_cases h : (some s : Option String) = b.color
    · by_cases hs : s = "" <;>
        simp [QColorButton.setColor, QColorButton.truthy, h.symm, hs]
    · by_cases hs : s = ""
      · subst hs
        simp [QColorButton.setColor, QColorButton.truthy, h]
      · simp [QColorButton.setColor, QColorButton.truthy, h, hs]

namespace GenericDialog

theorem pyIndex_eq_none {l : List String} {e : String} (h : e ∉ l) : pyIndex l e = none := by
  induction l with
  | nil => rfl
  | cons x xs ih =>
      simp only [List.mem_cons, not_or] at h
      simp only [pyIndex]
      rw [if_neg (fun hx => h.1 hx.symm), ih h.2]
      rfl

theorem pyIndex_isSome {l : List String} {e : String} (h : e ∈ l) :
    ∃ i, pyIndex l e = some i := by
  induction l with
  | nil => cases h
  | cons x xs ih =>
      by_cases hx : x = e
      · exact ⟨0, by simp [pyIndex, hx]⟩
      · have he : e ∈ xs := by
          rcases List.mem_cons.mp h with h1 | h2
          · exact absurd h1.symm hx
          · exact h2
        obtain ⟨i, hi⟩ := ih he
        exact ⟨i + 1, by simp [pyIndex, hx, hi]⟩

theorem indexList_eq_none {items lst : List String} {e : String}
    (he : e ∈ lst) (hn : pyIndex items e = none) : indexList items lst = none := by
  induction lst with
  | nil => cases he
  | cons x xs ih =>
      rcases List.mem_cons.mp he with rfl | h2
      · simp [indexList, hn]
      · cases hx : pyIndex items x <;> simp [indexList, hx, ih h2]

theorem indexList_eq_some {items lst : List String} (h : ∀ e ∈ lst, e ∈ items) :
    ∃ idxs, indexList items lst = some idxs ∧
      ∀ e ∈ lst, ∀ i, pyIndex items e = some i → i ∈ idxs := by
  induction lst with
  | nil => exact ⟨[], rfl, by simp⟩
  | cons x xs ih =>
      obtain ⟨i, hi⟩ := pyIndex_isSome (h x (List.mem_cons_self x xs))
      obtain ⟨idxs, hidxs, hmem⟩ := ih (fun e he => h e (List.mem_cons_of_mem _ he))
      refine ⟨i :: idxs, by simp [indexList, hi, hidxs], ?_⟩
      intro e he j hj
      rcases List.mem_cons.mp he with rfl | h2
      · rw [hi] at hj
        injection hj with hj
        simp [hj]
      · exact List.mem_cons_of_mem _ (hmem e h2 j hj)

theorem foldl_select_selected (checked : Bool) (idxs : List ℕ) (c : ListControl) (j : ℕ) :
    (idxs.foldl (fun acc idx => if checked then Select acc idx else Deselect acc idx)
        c).selected j
      = if j ∈ idxs then checked else c.selected j := by
  induction idxs generalizing c with
  | nil => simp
  | cons x xs ih =>
      rw [List.foldl_cons, ih]
      by_cases hj : j ∈ xs
      · simp [hj]
      · by_cases hjx : j = x
        · subst hjx
          cases checked <;> simp [hj, Select, Deselect]
        · cases checked <;> simp [hj, hjx, Select, Deselect]

end GenericDialog

open GenericDialog in
/-- C10: `setListControl` is atomic and never raises: when every element of the
given list occurs among the control's items, the (first) matching index of each
element is selected (`checked` true) or deselected (`checked` false); when any
element is missing, the control is left entirely unchanged (the exception is
swallowed, so the operation is total). -/
theorem C10_setListControl_atomic (c : ListControl) (list : List String) (checked : Bool) :
    ((∀ e ∈ list, e ∈ c.items) →
      ∀ e ∈ list, ∃ i, pyIndex c.items e = some i ∧
        (setListControl c list checked).selected i = checked) ∧
    ((∃ e ∈ list, e ∉ c.items) → setListControl c list checked = c) := by
  constructor
  · intro hall e he
    obtain ⟨idxs, hidxs, hmem⟩ := indexList_eq_some hall
    obtain ⟨i, hi⟩ := pyIndex_isSome (hall e he)
    refine ⟨i, hi, ?_⟩
    simp only [setListControl, hidxs]
    rw [foldl_select_selected]
    simp [hmem e he i hi]
  · rintro ⟨e, he, hne⟩
    simp only [setListControl, indexList_eq_none he (pyIndex_eq_none hne)]

open GenericDialog in
/-- Witness for C10 on a two-item control: selecting a present element marks its
index; a missing element leaves the control untouched. -/
theorem C10_setListControl_atomic_witness :
    (∀ e ∈ ["b"], e ∈ listControlAB.items) ∧
    (∃ i, pyIndex listControlAB.items "b" = some i ∧
      (setListControl listControlAB ["b"] true).selected i = true) ∧
    (∃ e ∈ ["z"], e ∉ listControlAB.items) ∧
    setListControl listControlAB ["z"] true = listControlAB := by
  have hmem : ∀ e ∈ ["b"], e ∈ listControlAB.items := by
    intro e he
    rw [List.mem_singleton] at he
    subst he
    simp [listControlAB]
  refine ⟨hmem,
    (C10_setListControl_atomic listControlAB ["b"] true).1 hmem "b" (by simp), ?_, ?_⟩
  · exact ⟨"z", by simp, by simp [listControlAB]⟩
  · exact (C10_setListControl_atomic listControlAB ["z"] true).2
      ⟨"z", by simp, by simp [listControlAB]⟩

namespace ExportImageDialog

/-- Effect of a user edit of the pixel-width spin box on a consistent dialog:
one run of `update_print_dimensions` recomputes the print width; the nested
signal on `width_p` is absorbed by the re-entrancy guard, and the `height_p`
write is value-preserving so it emits nothing. -/
theorem step_setWidth_eq (n : ℕ) (st : State) (v : ℚ) (hc : Consistent st)
    (hne : v ≠ st.width) :
    step (n + 4) (Event.setWidth v) st =
      { st with
        width := v
        w_ := v
        width_p := get_as_print_size st v st.print_units
        upd_runs := st.upd_runs + 1 } := by
  have hr : st.resolution ≠ 0 := ne_of_gt hc.pos_res
  have h1 : get_as_print_size st v st.print_units ≠ st.width_p := by
    rw [← gaps_width st hc]
    exact gaps_ne st hr st.print_units hne
  have h2 : get_as_print_size st st.height st.print_units = st.height_p :=
    gaps_height st hc
  simp only [get_as_print_size, get_converted_measurement, print_u, div_one] at h1 h2
  simp [step, setValue_width, dispatch, changed_image_dimensions,
    update_print_dimensions, setValue_width_p, setValue_height_p,
    changed_print_dimensions, update_image_dimensions, setValue_height,
    setValue_resolution, get_as_print_size, get_converted_measurement, print_u,
    hne, h1, h2, hc.guard_off, hc.sync_h, hc.sync_w, State.mk.injEq]

/-- Effect of a user edit of the pixel-height spin box on a consistent dialog:
the value-preserving `width_p` write emits nothing and the `height_p` signal is
absorbed by the re-entrancy guard. -/
theorem step_setHeight_eq (n : ℕ) (st : State) (v : ℚ) (hc : Consistent st)
    (hne : v ≠ st.height) :
    step (n + 4) (Event.setHeight v) st =
      { st with
        height := v
        h_ := v
        height_p := get_as_print_size st v st.print_units
        upd_runs := st.upd_runs + 1 } := by
  have hr : st.resolution ≠ 0 := ne_of_gt hc.pos_res
  have h1 : get_as_print_size st st.width st.print_units = st.width_p :=
    gaps_width st hc
  have h2 : get_as_print_size st v st.print_units ≠ st.height_p := by
    rw [← gaps_height st hc]
    exact gaps_ne st hr st.print_units hne
  simp only [get_as_print_size, get_converted_measurement, print_u, div_one] at h1 h2
  simp [step, setValue_width, dispatch, changed_image_dimensions,
    update_print_dimensions, setValue_width_p, setValue_height_p,
    changed_print_dimensions, update_image_dimensions, setValue_height,
    setValue_resolution, get_as_print_size, get_converted_measurement, print_u,
    hne, h1, h2, hc.guard_off, hc.sync_h, hc.sync_w, State.mk.injEq]

/-- Effect of a user edit of the print-width spin box on a consistent dialog:
one run of `update_image_dimensions` recomputes the pixel width; the `width`
signal is absorbed by the re-entrancy guard (which also re-synchronises `_h`,
making the trailing `height` write a no-op). -/
theorem step_setWidthP_eq (n : ℕ) (st : State) (v : ℚ) (hc : Consistent st)
    (hne : v ≠ st.width_p) :
    step (n + 4) (Event.setWidthP v) st =
      { st with
        width_p := v
        width := get_pixel_size v st.print_units st.resolution st.resolution_units
        w_ := get_pixel_size v st.print_units st.resolution st.resolution_units
        uid_runs := st.uid_runs + 1 } := by
  have hr : st.resolution ≠ 0 := ne_of_gt hc.pos_res
  have h1 : get_pixel_size v st.print_units st.resolution st.resolution_units ≠ st.width := by
    rw [hc.inv_w]
    exact gps_ne st hr st.print_units hne
  simp only [get_pixel_size] at h1
  simp [step, setValue_width, dispatch, changed_image_dimensions,
    update_print_dimensions, setValue_width_p, setValue_height_p,
    changed_print_dimensions, update_image_dimensions, setValue_height,
    setValue_resolution, get_pixel_size, hne, h1, hc.guard_off, hc.sync_h,
    hc.sync_w, State.mk.injEq]

/-- Effect of a user edit of the print-height spin box on a consistent dialog:
the value-preserving `width` write emits nothing and the `height` signal is
absorbed by the re-entrancy guard. -/
theorem step_setHeightP_eq (n : ℕ) (st : State) (v : ℚ) (hc : Consistent st)
    (hne : v ≠ st.height_p) :
    step (n + 4) (Event.setHeightP v) st =
      { st with
        height_p := v
        height := get_pixel_size v st.print_units st.resolution st.resolution_units
        h_ := get_pixel_size v st.print_units st.resolution st.resolution_units
        uid_runs := st.uid_runs + 1 } := by
  have hr : st.resolution ≠ 0 := ne_of_gt hc.pos_res
  have h1 : get_pixel_size st.width_p st.print_units st.resolution st.resolution_units
      = st.width := hc.inv_w.symm
  have h2 : get_pixel_size v st.print_units st.resolution st.resolution_units
      ≠ st.height := by
    rw [hc.inv_h]
    exact gps_ne st hr st.print_units hne
  simp only [get_pixel_size] at h1 h2
  simp [step, setValue_width, dispatch, changed_image_dimensions,
    update_print_dimensions, setValue_width_p, setValue_height_p,
    changed_print_dimensions, update_image_dimensions, setValue_height,
    setValue_resolution, get_pixel_size, hne, h1, h2, hc.guard_off, hc.sync_h,
    hc.sync_w, State.mk.injEq]

/-- Effect of a user edit of the resolution spin box on a consistent dialog:
`changed_print_resolution` rescales both print fields by `v / r`, and each of
the two writes triggers one `update_image_dimensions` run, so the pixel
dimensions end up rescaled by `(v / r)²` (and the invariant still holds). -/
theorem step_setResolution_eq (n : ℕ) (st : State) (v : ℚ) (hc : Consistent st)
    (hv : 0 < v) (hne : v ≠ st.resolution) :
    step (n + 4) (Event.setResolution v) st =
      { st with
        resolution := v
        width_p := st.width_p / st.resolution * v
        height_p := st.height_p / st.resolution * v
        width := st.width_p / st.resolution * v / print_u st.print_units *
          (v * resolution_u st.resolution_units)
        height := st.height_p / st.resolution * v / print_u st.print_units *
          (v * resolution_u st.resolution_units)
        w_ := st.width_p / st.resolution * v / print_u st.print_units *
          (v * resolution_u st.resolution_units)
        h_ := st.height_p / st.resolution * v / print_u st.print_units *
          (v * resolution_u st.resolution_units)
        current_resolution := v
        uid_runs := st.uid_runs + 2 } := by
  have hr := hc.pos_res
  have hf := print_u_pos st.print_units
  have hg := resolution_u_pos st.resolution_units
  have ne1 : st.width_p / st.resolution * v ≠ st.width_p :=
    div_mul_ne_self _ _ _ (ne_of_gt hc.pos_wp) (ne_of_gt hr) hne
  have ne3 : st.height_p / st.resolution * v ≠ st.height_p :=
    div_mul_ne_self _ _ _ (ne_of_gt hc.pos_hp) (ne_of_gt hr) hne
  have ne2 : st.width_p / st.resolution * v / print_u st.print_units *
      (v * resolution_u st.resolution_units) ≠ st.width := by
    rw [hc.inv_w, get_pixel_size]
    exact div_mul_sq_ne _ _ _ _ _ hc.pos_wp hf hg hr hv hne
  have ne4 : st.height_p / st.resolution * v / print_u st.print_units *
      (v * resolution_u st.resolution_units) ≠ st.height := by
    rw [hc.inv_h, get_pixel_size]
    exact div_mul_sq_ne _ _ _ _ _ hc.pos_hp hf hg hr hv hne
  simp [step, setValue_resolution, dispatch, changed_print_resolution,
    setValue_width_p, setValue_height_p, changed_print_dimensions,
    update_image_dimensions, get_pixel_size, setValue_width, setValue_height,
    changed_image_dimensions, update_print_dimensions, get_as_print_size,
    get_converted_measurement, hne, ne1, ne2, ne3, ne4, hc.guard_off,
    hc.cur_res, hc.sync_w, hc.sync_h, State.mk.injEq]

/-- Effect of switching the print-units combo box on a consistent dialog: both
print fields are converted to the new unit; each write triggers one
`update_image_dimensions` run (the first transiently corrupts the pixel height,
the second restores it), and the pixel dimensions end up unchanged. -/
theorem step_setPrintUnits_eq (n : ℕ) (st : State) (u : PrintUnit) (hc : Consistent st)
    (hne : u ≠ st.print_units) :
    step (n + 4) (Event.setPrintUnits u) st =
      { st with
        print_units := u
        width_p := st.width_p / print_u st.print_units * print_u u
        height_p := st.height_p / print_u st.print_units * print_u u
        current_dimension := u
        uid_runs := st.uid_runs + 2 } := by
  have hr := hc.pos_res
  have hf := print_u_pos st.print_units
  have hf2 := print_u_pos u
  have hg := resolution_u_pos st.resolution_units
  have hfne : print_u u ≠ print_u st.print_units := fun h => hne (print_u_inj h)
  have pne1 : st.width_p / print_u st.print_units * print_u u ≠ st.width_p :=
    div_mul_ne_self _ _ _ (ne_of_gt hc.pos_wp) (ne_of_gt hf) hfne
  have pne3 : st.height_p / print_u st.print_units * print_u u ≠ st.height_p :=
    div_mul_ne_self _ _ _ (ne_of_gt hc.pos_hp) (ne_of_gt hf) hfne
  have peq1 : st.width_p / print_u st.print_units * print_u u / print_u u *
      (st.resolution * resolution_u st.resolution_units) = st.width := by
    rw [mul_div_cancel_right₀ _ (print_u_ne_zero u), hc.inv_w, get_pixel_size]
  have peq2 : st.height_p / print_u st.print_units * print_u u / print_u u *
      (st.resolution * resolution_u st.resolution_units) = st.height := by
    rw [mul_div_cancel_right₀ _ (print_u_ne_zero u), hc.inv_h, get_pixel_size]
  have pne2 : st.height_p / print_u u *
      (st.resolution * resolution_u st.resolution_units) ≠ st.height := by
    rw [hc.inv_h, get_pixel_size]
    exact div_left_mul_ne _ _ _ _ (ne_of_gt hc.pos_hp) (by positivity)
      (ne_of_gt hf) (ne_of_gt hf2) hfne
  have pne2s : st.height ≠ st.height_p / print_u u *
      (st.resolution * resolution_u st.resolution_units) := Ne.symm pne2
  simp [step, changed_print_units, dispatch, setValue_width_p, setValue_height_p,
    changed_print_dimensions, update_image_dimensions, get_pixel_size,
    setValue_width, setValue_height, changed_image_dimensions,
    update_print_dimensions, get_as_print_size, get_converted_measurement,
    hne, pne1, pne2, pne2s, pne3, peq1, peq2, hc.guard_off, hc.cur_dim,
    hc.sync_w, hc.sync_h, State.mk.injEq]

/-- Effect of switching the resolution-units combo box on a consistent dialog:
the handler rescales the displayed resolution so dots-per-metre is preserved,
but the programmatic `resolution.setValue` fires `changed_print_resolution`,
which rescales both print fields by `g / g2` and, through two
`update_image_dimensions` runs, the pixel dimensions by the same factor. -/
theorem step_setResolutionUnits_eq (n : ℕ) (st : State) (u : ResUnit)
    (hc : Consistent st) (hne : u ≠ st.resolution_units) :
    step (n + 4) (Event.setResolutionUnits u) st =
      { st with
        resolution_units := u
        resolution := st.resolution * resolution_u st.resolution_units / resolution_u u
        width_p := st.width_p / st.resolution *
          (st.resolution * resolution_u st.resolution_units / resolution_u u)
        height_p := st.height_p / st.resolution *
          (st.resolution * resolution_u st.resolution_units / resolution_u u)
        width := st.width_p / st.resolution *
          (st.resolution * resolution_u st.resolution_units / resolution_u u) /
          print_u st.print_units *
          (st.resolution * resolution_u st.resolution_units / resolution_u u *
            resolution_u u)
        height := st.height_p / st.resolution *
          (st.resolution * resolution_u st.resolution_units / resolution_u u) /
          print_u st.print_units *
          (st.resolution * resolution_u st.resolution_units / resolution_u u *
            resolution_u u)
        w_ := st.width_p / st.resolution *
          (st.resolution * resolution_u st.resolution_units / resolution_u u) /
          print_u st.print_units *
          (st.resolution * resolution_u st.resolution_units / resolution_u u *
            resolution_u u)
        h_ := st.height_p / st.resolution *
          (st.resolution * resolution_u st.resolution_units / resolution_u u) /
          print_u st.print_units *
          (st.resolution * resolution_u st.resolution_units / resolution_u u *
            resolution_u u)
        current_resolution := st.resolution * resolution_u st.resolution_units /
          resolution_u u
        current_resolution_units := u
        uid_runs := st.uid_runs + 2 } := by
  have hr := hc.pos_res
  have hf := print_u_pos st.print_units
  have hg := resolution_u_pos st.resolution_units
  have hg2 := resolution_u_pos u
  have hgne : resolution_u st.resolution_units ≠ resolution_u u :=
    fun h => hne (resolution_u_inj h.symm)
  have rne1 : st.resolution * resolution_u st.resolution_units / resolution_u u
      ≠ st.resolution :=
    mul_div_ne_self _ _ _ (ne_of_gt hr) (ne_of_gt hg2) hgne
  have rne2 : st.width_p / st.resolution *
      (st.resolution * resolution_u st.resolution_units / resolution_u u)
      ≠ st.width_p :=
    div_mul_ne_self _ _ _ (ne_of_gt hc.pos_wp) (ne_of_gt hr) rne1
  have rne3 : st.height_p / st.resolution *
      (st.resolution * resolution_u st.resolution_units / resolution_u u)
      ≠ st.height_p :=
    div_mul_ne_self _ _ _ (ne_of_gt hc.pos_hp) (ne_of_gt hr) rne1
  have rneW : st.width_p / st.resolution *
      (st.resolution * resolution_u st.resolution_units / resolution_u u) /
      print_u st.print_units *
      (st.resolution * resolution_u st.resolution_units / resolution_u u *
        resolution_u u) ≠ st.width := by
    rw [hc.inv_w, get_pixel_size]
    exact res_unit_scale_ne _ _ _ _ _ hc.pos_wp hf hg hg2 hr hgne
  have rneH : st.height_p / st.resolution *
      (st.resolution * resolution_u st.resolution_units / resolution_u u) /
      print_u st.print_units *
      (st.resolution * resolution_u st.resolution_units / resolution_u u *
        resolution_u u) ≠ st.height := by
    rw [hc.inv_h, get_pixel_size]
    exact res_unit_scale_ne _ _ _ _ _ hc.pos_hp hf hg hg2 hr hgne
  simp [step, changed_resolution_units, setValue_resolution, dispatch,
    changed_print_resolution, setValue_width_p, setValue_height_p,
    changed_print_dimensions, update_image_dimensions, get_pixel_size,
    setValue_width, setValue_height, changed_image_dimensions,
    update_print_dimensions, get_as_print_size, get_converted_measurement,
    hne, rne1, rne2, rne3, rneW, rneH, hc.guard_off, hc.cur_res, hc.cur_ru,
    hc.sync_w, hc.sync_h, State.mk.injEq]

/-- With no handler connected, `setValue` just stores (whether or not the value
changed, the resulting state is the same record). -/
theorem setValue_width_noSignal (st : State) (v : ℚ) :
    setValue_width noSignal st v = { st with width := v } := by
  unfold setValue_width noSignal
  split_ifs with h
  · rw [h]
  · rfl

/-- `setValue_height` with no handler connected just stores. -/
theorem setValue_height_noSignal (st : State) (v : ℚ) :
    setValue_height noSignal st v = { st with height := v } := by
  unfold setValue_height noSignal
  split_ifs with h
  · rw [h]
  · rfl

/-- `setValue_width_p` with no handler connected just stores. -/
theorem setValue_width_p_noSignal (st : State) (v : ℚ) :
    setValue_width_p noSignal st v = { st with width_p := v } := by
  unfold setValue_width_p noSignal
  split_ifs with h
  · rw [h]
  · rfl

/-- `setValue_height_p` with no handler connected just stores. -/
theorem setValue_height_p_noSignal (st : State) (v : ℚ) :
    setValue_height_p noSignal st v = { st with height_p := v } := by
  unfold setValue_height_p noSignal
  split_ifs with h
  · rw [h]
  · rfl

/-- The freshly constructed dialog is consistent: `update_print_dimensions`
ran once with no handlers connected, so the invariant holds, the mirrors and
`_current_*` attributes agree with the widgets, and all values are positive. -/
theorem mk_dialog_consistent (W H : ℚ) (hW : 0 < W) (hH : 0 < H) :
    Consistent (mk_dialog W H) := by
  refine ⟨?_, ?_, ?_, ?_, ?_, ?_, ?_, ?_, ?_, ?_, ?_⟩ <;>
    simp [mk_dialog, setValue_width_noSignal, setValue_height_noSignal,
      update_print_dimensions, setValue_width_p_noSignal,
      setValue_height_p_noSignal, get_as_print_size, get_converted_measurement,
      get_pixel_size, print_u, resolution_u]
  · field_simp
  · field_simp
  · positivity
  · positivity

/-- `get_as_print_size` of a positive size is positive. -/
theorem gaps_pos (st : State) (hr : 0 < st.resolution) {s : ℚ} (hs : 0 < s)
    (u : PrintUnit) : 0 < get_as_print_size st s u := by
  unfold get_as_print_size get_converted_measurement
  exact mul_pos
    (div_pos (div_pos hs (mul_pos hr (resolution_u_pos st.resolution_units)))
      (print_u_pos PrintUnit.m))
    (print_u_pos u)

/-- `get_pixel_size` of a positive print size is positive. -/
theorem gps_pos {p : ℚ} (hp : 0 < p) (u : PrintUnit) {r : ℚ} (hr : 0 < r)
    (ru : ResUnit) : 0 < get_pixel_size p u r ru := by
  unfold get_pixel_size
  exact mul_pos (div_pos hp (print_u_pos u)) (mul_pos hr (resolution_u_pos ru))

/-- The state after a pixel-width edit is consistent. -/
theorem consistent_setWidth (st : State) (v : ℚ) (hc : Consistent st) (hv : 0 < v) :
    Consistent { st with
      width := v
      w_ := v
      width_p := get_as_print_size st v st.print_units
      upd_runs := st.upd_runs + 1 } := by
  refine ⟨?_, ?_, ?_, ?_, ?_, ?_, ?_, ?_, ?_, ?_, ?_⟩ <;>
    simp [hc.sync_h, hc.guard_off, hc.cur_dim, hc.cur_res, hc.cur_ru,
      hc.pos_hp, hc.pos_res]
  · exact (pixel_of_print_of_pixel st v st.print_units (ne_of_gt hc.pos_res)).symm
  · exact hc.inv_h
  · exact gaps_pos st hc.pos_res hv st.print_units

/-- The state after a pixel-height edit is consistent. -/
theorem consistent_setHeight (st : State) (v : ℚ) (hc : Consistent st) (hv : 0 < v) :
    Consistent { st with
      height := v
      h_ := v
      height_p := get_as_print_size st v st.print_units
      upd_runs := st.upd_runs + 1 } := by
  refine ⟨?_, ?_, ?_, ?_, ?_, ?_, ?_, ?_, ?_, ?_, ?_⟩ <;>
    simp [hc.sync_w, hc.guard_off, hc.cur_dim, hc.cur_res, hc.cur_ru,
      hc.pos_wp, hc.pos_res]
  · exact hc.inv_w
  · exact (pixel_of_print_of_pixel st v st.print_units (ne_of_gt hc.pos_res)).symm
  · exact gaps_pos st hc.pos_res hv st.print_units

/-- The state after a print-width edit is consistent. -/
theorem consistent_setWidthP (st : State) (v : ℚ) (hc : Consistent st) (hv : 0 < v) :
    Consistent { st with
      width_p := v
      width := get_pixel_size v st.print_units st.resolution st.resolution_units
      w_ := get_pixel_size v st.print_units st.resolution st.resolution_units
      uid_runs := st.uid_runs + 1 } := by
  refine ⟨?_, ?_, ?_, ?_, ?_, ?_, ?_, ?_, ?_, ?_, ?_⟩ <;>
    simp [hc.sync_h, hc.guard_off, hc.cur_dim, hc.cur_res, hc.cur_ru,
      hv, hc.pos_hp, hc.pos_res]
  exact hc.inv_h

/-- The state after a print-height edit is consistent. -/
theorem consistent_setHeightP (st : State) (v : ℚ) (hc : Consistent st) (hv : 0 < v) :
    Consistent { st with
      height_p := v
      height := get_pixel_size v st.print_units st.resolution st.resolution_units
      h_ := get_pixel_size v st.print_units st.resolution st.resolution_units
      uid_runs := st.uid_runs + 1 } := by
  refine ⟨?_, ?_, ?_, ?_, ?_, ?_, ?_, ?_, ?_, ?_, ?_⟩ <;>
    simp [hc.sync_w, hc.guard_off, hc.cur_dim, hc.cur_res, hc.cur_ru,
      hv, hc.pos_wp, hc.pos_res]
  exact hc.inv_w

/-- The state after a resolution edit is consistent (everything was rescaled
coherently). -/
theorem consistent_setResolution (st : State) (v : ℚ) (hc : Consistent st)
    (hv : 0 < v) :
    Consistent { st with
      resolution := v
      width_p := st.width_p / st.resolution * v
      height_p := st.height_p / st.resolution * v
      width := st.width_p / st.resolution * v / print_u st.print_units *
        (v * resolution_u st.resolution_units)
      height := st.height_p / st.resolution * v / print_u st.print_units *
        (v * resolution_u st.resolution_units)
      w_ := st.width_p / st.resolution * v / print_u st.print_units *
        (v * resolution_u st.resolution_units)
      h_ := st.height_p / st.resolution * v / print_u st.print_units *
        (v * resolution_u st.resolution_units)
      current_resolution := v
      uid_runs := st.uid_runs + 2 } := by
  refine ⟨?_, ?_, ?_, ?_, ?_, ?_, ?_, ?_, ?_, ?_, ?_⟩ <;>
    simp [get_pixel_size, hc.guard_off, hc.cur_dim, hc.cur_ru, hv]
  · have h1 := hc.pos_wp
    have h3 := hc.pos_res
    positivity
  · have h2 := hc.pos_hp
    have h3 := hc.pos_res
    positivity

/-- The state after a print-unit switch is consistent (print fields converted,
pixel fields restored). -/
theorem consistent_setPrintUnits (st : State) (u : PrintUnit) (hc : Consistent st) :
    Consistent { st with
      print_units := u
      width_p := st.width_p / print_u st.print_units * print_u u
      height_p := st.height_p / print_u st.print_units * print_u u
      current_dimension := u
      uid_runs := st.uid_runs + 2 } := by
  refine ⟨?_, ?_, ?_, ?_, ?_, ?_, ?_, ?_, ?_, ?_, ?_⟩ <;>
    simp [hc.sync_w, hc.sync_h, hc.guard_off, hc.cur_res, hc.cur_ru, hc.pos_res]
  · rw [get_pixel_size, mul_div_cancel_right₀ _ (print_u_ne_zero u), hc.inv_w,
      get_pixel_size]
  · rw [get_pixel_size, mul_div_cancel_right₀ _ (print_u_ne_zero u), hc.inv_h,
      get_pixel_size]
  · exact mul_pos (div_pos hc.pos_wp (print_u_pos st.print_units)) (print_u_pos u)
  · exact mul_pos (div_pos hc.pos_hp (print_u_pos st.print_units)) (print_u_pos u)

/-- The state after a resolution-unit switch is consistent (the rescalings of
the displayed resolution, the print fields and the pixel fields cohere). -/
theorem consistent_setResolutionUnits (st : State) (u : ResUnit) (hc : Consistent st) :
    Consistent { st with
      resolution_units := u
      resolution := st.resolution * resolution_u st.resolution_units / resolution_u u
      width_p := st.width_p / st.resolution *
        (st.resolution * resolution_u st.resolution_units / resolution_u u)
      height_p := st.height_p / st.resolution *
        (st.resolution * resolution_u st.resolution_units / resolution_u u)
      width := st.width_p / st.resolution *
        (st.resolution * resolution_u st.resolution_units / resolution_u u) /
        print_u st.print_units *
        (st.resolution * resolution_u st.resolution_units / resolution_u u *
          resolution_u u)
      height := st.height_p / st.resolution *
        (st.resolution * resolution_u st.resolution_units / resolution_u u) /
        print_u st.print_units *
        (st.resolution * resolution_u st.resolution_units / resolution_u u *
          resolution_u u)
      w_ := st.width_p / st.resolution *
        (st.resolution * resolution_u st.resolution_units / resolution_u u) /
        print_u st.print_units *
        (st.resolution * resolution_u st.resolution_units / resolution_u u *
          resolution_u u)
      h_ := st.height_p / st.resolution *
        (st.resolution * resolution_u st.resolution_units / resolution_u u) /
        print_u st.print_units *
        (st.resolution * resolution_u st.resolution_units / resolution_u u *
          resolution_u u)
      current_resolution := st.resolution * resolution_u st.resolution_units /
        resolution_u u
      current_resolution_units := u
      uid_runs := st.uid_runs + 2 } := by
  have hscale : 0 < st.resolution * resolution_u st.resolution_units / resolution_u u :=
    div_pos (mul_pos hc.pos_res (resolution_u_pos st.resolution_units))
      (resolution_u_pos u)
  refine ⟨?_, ?_, ?_, ?_, ?_, ?_, ?_, ?_, ?_, ?_, ?_⟩ <;>
    simp [get_pixel_size, hc.guard_off, hc.cur_dim, hscale]
  · have h1 := hc.pos_wp
    have h3 := hc.pos_res
    positivity
  · have h2 := hc.pos_hp
    have h3 := hc.pos_res
    positivity

end ExportImageDialog

open ExportImageDialog in
/-- C1: the invariant pixel_size = print_size_in_metres × resolution_in_dots_per_metre
(for both width and height, via `get_pixel_size` over metres and dots-per-metre)
holds after construction, and is re-established after the change handler for
any single user edit — pixel width/height, print width/height, resolution
value, print unit or resolution unit — completes, for every consistent dialog
state and admissible edited value. -/
theorem C1_export_invariant (n : ℕ) (W H : ℚ) (st : State) (e : Event)
    (hW : 0 < W) (hH : 0 < H) (hc : Consistent st) (he : EventOK e) :
    Consistent (mk_dialog W H) ∧ Consistent (step (n + 4) e st) := by
  refine ⟨mk_dialog_consistent W H hW hH, ?_⟩
  rcases e with v | v | v | v | v | u | u
  · by_cases hne : v = st.width
    · rw [show step (n + 4) (Event.setWidth v) st = st by
        simp [step, setValue_width, hne]]
      exact hc
    · rw [step_setWidth_eq n st v hc hne]
      exact consistent_setWidth st v hc he
  · by_cases hne : v = st.height
    · rw [show step (n + 4) (Event.setHeight v) st = st by
        simp [step, setValue_height, hne]]
      exact hc
    · rw [step_setHeight_eq n st v hc hne]
      exact consistent_setHeight st v hc he
  · by_cases hne : v = st.width_p
    · rw [show step (n + 4) (Event.setWidthP v) st = st by
        simp [step, setValue_width_p, hne]]
      exact hc
    · rw [step_setWidthP_eq n st v hc hne]
      exact consistent_setWidthP st v hc he
  · by_cases hne : v = st.height_p
    · rw [show step (n + 4) (Event.setHeightP v) st = st by
        simp [step, setValue_height_p, hne]]
      exact hc
    · rw [step_setHeightP_eq n st v hc hne]
      exact consistent_setHeightP st v hc he
  · by_cases hne : v = st.resolution
    · rw [show step (n + 4) (Event.setResolution v) st = st by
        simp [step, setValue_resolution, hne]]
      exact hc
    · rw [step_setResolution_eq n st v hc he hne]
      exact consistent_setResolution st v hc he
  · by_cases hne : u = st.print_units
    · rw [show step (n + 4) (Event.setPrintUnits u) st = st by simp [step, hne]]
      exact hc
    · rw [step_setPrintUnits_eq n st u hc hne]
      exact consistent_setPrintUnits st u hc
  · by_cases hne : u = st.resolution_units
    · rw [show step (n + 4) (Event.setResolutionUnits u) st = st by
        simp [step, hne]]
      exact hc
    · rw [step_setResolutionUnits_eq n st u hc hne]
      exact consistent_setResolutionUnits st u hc

open ExportImageDialog in
/-- Witness for C1 at the default dialog and a pixel-width edit to 1000. -/
theorem C1_export_invariant_witness :
    0 < (800 : ℚ) ∧ 0 < (600 : ℚ) ∧ Consistent dialog800 ∧
    EventOK (Event.setWidth 1000) ∧
    (Consistent (mk_dialog 800 600) ∧
      Consistent (step (0 + 4) (Event.setWidth 1000) dialog800)) :=
  ⟨by norm_num, by norm_num,
   mk_dialog_consistent 800 600 (by norm_num) (by norm_num),
   by norm_num [EventOK],
   C1_export_invariant 0 800 600 dialog800 (Event.setWidth 1000) (by norm_num)
     (by norm_num) (mk_dialog_consistent 800 600 (by norm_num) (by norm_num))
     (by norm_num [EventOK])⟩

open ExportImageDialog in
/-- C3: on a consistent dialog, while a pixel-dimension change is propagated to
the paired print fields, `update_image_dimensions` never runs (the reverse
recomputation is suppressed), and symmetrically a print-dimension change never
triggers `update_print_dimensions`; each such cascade performs at most one
forward recomputation and terminates. -/
theorem C3_reentrancy_guard (n : ℕ) (st : State) (v : ℚ) (hc : Consistent st) :
    ((step (n + 4) (Event.setWidth v) st).uid_runs = st.uid_runs ∧
      (step (n + 4) (Event.setWidth v) st).upd_runs ≤ st.upd_runs + 1) ∧
    ((step (n + 4) (Event.setHeight v) st).uid_runs = st.uid_runs ∧
      (step (n + 4) (Event.setHeight v) st).upd_runs ≤ st.upd_runs + 1) ∧
    ((step (n + 4) (Event.setWidthP v) st).upd_runs = st.upd_runs ∧
      (step (n + 4) (Event.setWidthP v) st).uid_runs ≤ st.uid_runs + 1) ∧
    ((step (n + 4) (Event.setHeightP v) st).upd_runs = st.upd_runs ∧
      (step (n + 4) (Event.setHeightP v) st).uid_runs ≤ st.uid_runs + 1) := by
  refine ⟨?_, ?_, ?_, ?_⟩
  · by_cases hne : v = st.width
    · rw [show step (n + 4) (Event.setWidth v) st = st by
        simp [step, setValue_width, hne]]
      exact ⟨rfl, Nat.le_succ _⟩
    · rw [step_setWidth_eq n st v hc hne]
      exact ⟨rfl, le_refl _⟩
  · by_cases hne : v = st.height
    · rw [show step (n + 4) (Event.setHeight v) st = st by
        simp [step, setValue_height, hne]]
      exact ⟨rfl, Nat.le_succ _⟩
    · rw [step_setHeight_eq n st v hc hne]
      exact ⟨rfl, le_refl _⟩
  · by_cases hne : v = st.width_p
    · rw [show step (n + 4) (Event.setWidthP v) st = st by
        simp [step, setValue_width_p, hne]]
      exact ⟨rfl, Nat.le_succ _⟩
    · rw [step_setWidthP_eq n st v hc hne]
      exact ⟨rfl, le_refl _⟩
  · by_cases hne : v = st.height_p
    · rw [show step (n + 4) (Event.setHeightP v) st = st by
        simp [step, setValue_height_p, hne]]
      exact ⟨rfl, Nat.le_succ _⟩
    · rw [step_setHeightP_eq n st v hc hne]
      exact ⟨rfl, le_refl _⟩

open ExportImageDialog in
/-- Witness for C3 at the default dialog and a pixel-width edit to 1000. -/
theorem C3_reentrancy_guard_witness :
    Consistent dialog800 ∧
    (step (0 + 4) (Event.setWidth 1000) dialog800).uid_runs = dialog800.uid_runs :=
  ⟨mk_dialog_consistent 800 600 (by norm_num) (by norm_num),
   (C3_reentrancy_guard 0 dialog800 1000
     (mk_dialog_consistent 800 600 (by norm_num) (by norm_num))).1.1⟩

open ExportImageDialog in
/-- C4: the claim that switching the resolution unit only rescales the
displayed number fails on the code: switching dpi → px/m on the default
800×600 / 300 dpi / cm dialog preserves dots-per-metre but multiplies the
print width (266.67 cm ≈ 8/3 m instead of ≈ 0.0677 m) and the pixel width
(31496.08 instead of 800) by 39.3701, because the handler's programmatic
`resolution.setValue` fires `changed_print_resolution`. -/
theorem C4_unit_change_divergence :
    get_dots_per_meter (step 6 (Event.setResolutionUnits ResUnit.pxm) dialog800) =
      get_dots_per_meter dialog800 ∧
    dialog800.width = 800 ∧
    (step 6 (Event.setResolutionUnits ResUnit.pxm) dialog800).width = 31496.08 ∧
    (step 6 (Event.setResolutionUnits ResUnit.pxm) dialog800).width_p /
        print_u (step 6 (Event.setResolutionUnits ResUnit.pxm) dialog800).print_units =
      8 / 3 ∧
    dialog800.width_p / print_u dialog800.print_units = 80000 / 1181103 := by
  have hc : Consistent dialog800 :=
    mk_dialog_consistent 800 600 (by norm_num) (by norm_num)
  have hne : ResUnit.pxm ≠ dialog800.resolution_units := by
    rw [dialog800_eval]
    decide
  have hstep := step_setResolutionUnits_eq 2 dialog800 ResUnit.pxm hc hne
  rw [show (6 : ℕ) = 2 + 4 from rfl, hstep, dialog800_eval]
  refine ⟨?_, ?_, ?_, ?_, ?_⟩ <;>
    norm_num [get_dots_per_meter, resolution_u, print_u]

end Hinge
